import Mathlib

/-!
Verification of the video-conferences Alfred workflow
(`video-conferences.py` and `icons.py`).

The Python sources are shallowly embedded below.  Conventions:

* The filesystem is modelled as an association list from paths to file
  contents (`FS`); the head of the list is the most recent write.
* Python's builtin `hash` applied to a colour component, composed with
  `str`, is opaque (implementation defined); it is modelled by an
  explicit function parameter `hashStr : α → String` over an abstract
  component type `α`.
* A compiled regular expression is modelled by its search function
  `String → Option String`, returning `m.group(0)` (the matched
  substring) on success and `none` on failure.
* `datetime` values are modelled as integers with the usual order.
* Code raising an exception is modelled with `Except String`.
-/

namespace AlfredVC

/-- Model of `posixpath.join` on two segments: if the second segment is
absolute it wins; otherwise the segments are joined, inserting a slash
unless the first is empty or already ends in a slash. -/
def headIsSlash (s : String) : Bool := s.data.head? = some '/'

/-- Whether the last character of a string is a slash. -/
def lastIsSlash (s : String) : Bool := s.data.getLast? = some '/'

/-- `os.path.join(a, b)` (POSIX semantics). -/
def pyJoin (a b : String) : String :=
  if headIsSlash b then b
  else if a = "" ∨ lastIsSlash a then a ++ b
  else a ++ "/" ++ b

/-- `os.path.join(*elems)` on a list of segments, left fold of `pyJoin`.
`os.path.join` requires at least one argument; the empty list returns
`""` (unreachable for 4-component colours). -/
def pyJoinList : List String → String
  | [] => ""
  | e :: rest => rest.foldl pyJoin e

/-- Python `sep.join(elems)`. -/
def strJoin (sep : String) : List String → String
  | [] => ""
  | [x] => x
  | x :: y :: rest => x ++ sep ++ strJoin sep (y :: rest)

/-- Truthiness of Python `x or fallback` for an optional string `x`
(`None` and `""` are falsy). -/
def orDefault (v : Option String) (fallback : String) : String :=
  match v with
  | some s => if s = "" then fallback else s
  | none => fallback

/-- Contents of a file in the modelled filesystem: `_write_image`
produces a file that is a deterministic function of the template path
and the colour (`rendered`); `other` stands for any pre-existing file. -/
inductive FileData (α : Type) where
  | rendered (template : String) (colour : List α)
  | other (tag : String)
deriving DecidableEq

/-- The filesystem: an association list from path to contents, most
recent write first. -/
abbrev FS (α : Type) := List (String × FileData α)

/-- `os.path.exists(path)` over the modelled filesystem. -/
def fsExists (fs : FS α) (path : String) : Bool :=
  fs.any (fun f => f.1 = path)

/-- `_write_image(template, outfile, colour)`: create a file at
`outfile` whose contents are a deterministic function of `template` and
`colour` (the actual pixel data is opaque). -/
def writeImage (template outfile : String) (colour : List α) (fs : FS α) : FS α :=
  (outfile, FileData.rendered template colour) :: fs

/-- The `Icons` class from `icons.py`: `__init__(self, dirpath,
default='icon.png', template='icon.png')`. -/
structure Icons where
  dirpath : String
  default : String := "icon.png"
  template : String := "icon.png"
deriving DecidableEq

/-- `Icons._icon_path(self, colour)`:
`elems = [str(hash(n)) for n in colour]`,
`filename = '-'.join(elems) + '.png'`,
`dirname = os.path.join(*elems)`,
return `os.path.join(self.dirpath, dirname, filename)`. -/
def icon_path (hashStr : α → String) (i : Icons) (colour : List α) : String :=
  let elems := colour.map hashStr
  let filename := strJoin "-" elems ++ ".png"
  let dirname := pyJoinList elems
  pyJoin (pyJoin i.dirpath dirname) filename

/-- Module-level `cache_path(colour)` from `icons.py`: the *relative*
variant of the same derivation. -/
def cache_path (hashStr : α → String) (colour : List α) : String :=
  let elems := colour.map hashStr
  let filename := strJoin "-" elems ++ ".png"
  let dirname := pyJoinList elems
  pyJoin dirname filename

/-- Modelled from the spec: the claimed output-path formula
`root / component1 / component2 / component3 / component4.png`, each
segment being the stringified per-component hash (all four components
joined as path segments, with `.png` appended to the last). -/
def claimIconPath (hashStr : α → String) (root : String) (colour : List α) : String :=
  pyJoin root (pyJoinList (colour.map hashStr)) ++ ".png"

/-- `Icons.get_icon(self, colour, default=None)`:
`default = default or self.default`; return the derived path if a file
exists there, else the default.  The filesystem is returned unchanged
(the method only reads it). -/
def get_icon (hashStr : α → String) (i : Icons) (fs : FS α) (colour : List α)
    (dflt : Option String := none) : String × FS α :=
  let d := orDefault dflt i.default
  let path := icon_path hashStr i colour
  (if fsExists fs path then path else d, fs)

/-- `Icons.create_icon(self, colour, template=None)`:
`template = template or self.template`; raise `ValueError` if no
template; short-circuit if the derived path already exists; otherwise
render the image there (directory creation is not observable in the
file map).  The `Bool` records whether the renderer was invoked. -/
def create_icon (hashStr : α → String) (i : Icons) (fs : FS α) (colour : List α)
    (tmpl : Option String := none) : Except String (String × FS α × Bool) :=
  let template := orDefault tmpl i.template
  if template = "" then Except.error "no template specified"
  else
    let path := icon_path hashStr i colour
    if fsExists fs path then Except.ok (path, fs, false)
    else Except.ok (path, writeImage template path colour fs, true)

/-! ## Embedding of `video-conferences.py` -/

/-- An event as returned by `CalendarEvents.scpt` (after date parsing).
Date fields are modelled as integers; the colour is a list of abstract
components. -/
structure Event (α : Type) where
  title : String
  start_date : Int
  end_date : Int
  account : String
  calendar : String
  url : String
  location : String
  notes : String
  colour : List α
  uid : String
deriving DecidableEq

/-- The payload cached under the `events` key: the parsed output of
`CalendarEvents.scpt`.  A missing `events` key is identified with the
empty list; a missing `error` key with `none`. -/
structure Dataset (α : Type) where
  events : List (Event α) := []
  error : Option String := none
deriving DecidableEq

/-- Truthiness of Python `data.get('error')`: a missing key and an
empty string are both falsy. -/
def errTruthy : Option String → Bool
  | some s => s ≠ ""
  | none => false

/-- The configuration loaded by `load_config()`: account and calendar
allow-lists and the compiled `regex_*` patterns (each modelled by its
search function). -/
structure Config where
  accounts : List String := []
  calendars : List String := []
  regexes : List (String → Option String) := []

/-- Inner loop of `event_filter`: the first pattern in `rxs` whose
search on `s` succeeds, returning the matched substring. -/
def firstPatternMatch : List (String → Option String) → String → Option String
  | [], _ => none
  | rx :: rest, s =>
    match rx s with
    | some m => some m
    | none => firstPatternMatch rest s

/-- Nested loop of `event_filter` over the candidate fields: the first
field with any pattern match, and within it the first matching
pattern. -/
def firstFieldMatch (rxs : List (String → Option String)) : List String → Option String
  | [] => none
  | s :: rest =>
    match firstPatternMatch rxs s with
    | some m => some m
    | none => firstFieldMatch rxs rest

/-- `event_filter(event)` from `video-conferences.py`.  The Python
function mutates `event['url']` in place and returns a truthy value iff
the event is wanted; here it returns the keep flag together with the
event as it stands after the call. -/
def event_filter (cfg : Config) (now : Int) (event : Event α) : Bool × Event α :=
  if event.end_date < now then (false, event)
  else if cfg.accounts ≠ [] ∧ event.account ∉ cfg.accounts then (false, event)
  else if cfg.calendars ≠ [] ∧ event.calendar ∉ cfg.calendars then (false, event)
  else
    match firstFieldMatch cfg.regexes [event.url, event.location, event.notes] with
    | some m => (true, { event with url := m })
    | none => (false, event)

/-- The observable state threaded through the workflow: the event
cache (dataset plus timestamp of the last successful write), the
current time, whether the background `reload` job is running
(`is_running('reload')`), the icon cache directory
(`wf.cachefile('icons')`) and its files, and whether the `notify`
trigger fired. -/
structure World (α : Type) where
  cache : Option (Dataset α × Int) := none
  now : Int := 0
  jobRunning : Bool := false
  iconDir : String := "icons"
  iconFS : FS α := []
  notified : Bool := false
deriving DecidableEq

/-- Modelled from the spec: the Event Cache `load(max_age)` of the
workflow library (`wf.cached_data`, not in src): returns the stored
Dataset if `now - timestamp <= max_age`; a `max_age` of zero means
"return whatever is stored regardless of age". -/
def cached_data (cache : Option (Dataset α × Int)) (now maxAge : Int) :
    Option (Dataset α) :=
  match cache with
  | none => none
  | some (d, ts) => if maxAge = 0 ∨ now - ts ≤ maxAge then some d else none

/-- Modelled from the spec: the Event Cache `is_fresh(max_age)` of the
workflow library (`wf.cached_data_fresh`, not in src): true iff a
Dataset is stored and `now - timestamp <= max_age`. -/
def cached_data_fresh (cache : Option (Dataset α × Int)) (now maxAge : Int) : Bool :=
  match cache with
  | none => false
  | some (_, ts) => now - ts ≤ maxAge

/-- `generate_icons(events)`: deduplicate the observed colours
(Python builds a `set`; iteration order is unspecified, modelled here
by first-occurrence order) and `create_icon` each one with the default
template. -/
def generate_icons [DecidableEq α] (hashStr : α → String) (iconDir : String)
    (fs : FS α) (events : List (Event α)) : Except String (FS α) :=
  let icons : Icons := { dirpath := iconDir }
  let colours := (events.map (fun e => e.colour)).dedup
  colours.foldlM
    (fun fs c => (create_icon hashStr icons fs c none).map (fun r => r.2.1)) fs

/-- `do_reload(notify)`: fetch events (the fetched Dataset is a
parameter, the fetcher being an external script), write them to the
event cache via `wf.cache_data` (modelled from the spec: `save`
overwrites the stored Dataset and records the current time), log any
error, generate icons when events are present, and fire the `notify`
trigger when requested. -/
def do_reload [DecidableEq α] (hashStr : α → String) (notify : Bool)
    (fetched : Dataset α) (w : World α) : Except String (World α) :=
  let w1 : World α := { w with cache := some (fetched, w.now) }
  match (if fetched.events ≠ [] then
          generate_icons hashStr w1.iconDir w1.iconFS fetched.events
         else Except.ok w1.iconFS) with
  | Except.error e => Except.error e
  | Except.ok fs =>
    let w2 : World α := { w1 with iconFS := fs }
    Except.ok (if notify then { w2 with notified := true } else w2)

/-- A Script Filter feedback item.  `info` and `warning` are
`wf.add_item` calls with `ICON_INFO` / `ICON_WARNING`; `result` is an
event row; `reloadAction` is the synthetic "Reload Events" row. -/
inductive Item where
  | info (title subtitle : String)
  | warning (title subtitle : String)
  | result (title subtitle arg icon calendarName eventId : String)
  | reloadAction (title subtitle arg icon : String)
deriving DecidableEq

/-- Python `s.startswith(q)`. -/
def pyStartsWith (s q : String) : Bool := q.data.isPrefixOf s.data

/-- The feedback-building part of `main` (everything after the rerun
decision): load the cache age-unbounded, handle the empty cache, raise
the dataset error, filter, rank by query via the external matching
engine `matcher` (`wf.filter`), decorate with icons and subtitles
(time formatting via the external `fmtHM`/`fmtYMD`), append the
synthetic reload row, and apply `wf.warn_empty`. -/
def mainFeedbackData (cfg : Config) (hashStr : α → String)
    (matcher : String → List (Event α) → List (Event α))
    (fmtHM fmtYMD : Int → String) (w : World α) (query : String)
    (data : Dataset α) : Except String (List Item) :=
  if errTruthy data.error then Except.error (data.error.getD "")
  else
    let events := data.events.filterMap (fun e =>
      let r := event_filter cfg w.now e
      if r.1 then some r.2 else none)
    let events := if query ≠ "" then matcher query events else events
    let icons : Icons := { dirpath := w.iconDir }
    let items := events.map (fun d =>
      let subtitle := fmtHM d.start_date ++ "–" ++ fmtHM d.end_date ++ " on " ++
        fmtYMD d.start_date ++ " // " ++ d.calendar ++ " (" ++ d.account ++ ")"
      Item.result d.title subtitle d.url
        (get_icon hashStr icons w.iconFS d.colour none).1 d.calendar d.uid)
    let items := items ++
      (if query.length > 1 ∧ pyStartsWith "reload" query then
        [Item.reloadAction "Reload Events"
          "Update cached events from Calendar database" "reload" "reload.png"]
       else [])
    let warningTitle :=
      if query ≠ "" then "No Matching Events" else "No Video Conferences"
    let items := if items = [] then [Item.warning warningTitle ""] else items
    Except.ok items

def mainFeedback (cfg : Config) (hashStr : α → String)
    (matcher : String → List (Event α) → List (Event α))
    (fmtHM fmtYMD : Int → String) (w : World α) (query : String)
    (reloading : Bool) : Except String (List Item) :=
  match cached_data w.cache w.now 0 with
  | none =>
    Except.ok
      [if reloading then
        Item.info "Loading Events…" "Results should appear momentarily"
       else Item.warning "No Data" "Workflow could not load calendar data"]
  | some data => mainFeedbackData cfg hashStr matcher fmtHM fmtYMD w query data

/-- The default (query) mode of `main`: the refresh decision
(`is_running('reload')`, `wf.cached_data_fresh`, `run_in_background`,
`wf.rerun = 0.2`) followed by `mainFeedback`.  Returns the number of
background refreshes started, whether rerun was set, and the feedback
outcome (`Except.error` models the `RuntimeError` raised on a dataset
error). -/
def mainSearch (cfg : Config) (hashStr : α → String)
    (matcher : String → List (Event α) → List (Event α))
    (fmtHM fmtYMD : Int → String) (w : World α) (maxAge : Int)
    (query : String) : Nat × Bool × Except String (List Item) :=
  let reloading := w.jobRunning
  let sr : Nat × Bool :=
    if ¬(cached_data_fresh w.cache w.now maxAge) ∧ reloading = false then (1, true)
    else (0, reloading)
  (sr.1, sr.2, mainFeedback cfg hashStr matcher fmtHM fmtYMD w query sr.2)

/-! ## Helper lemmas -/

theorem fsExists_writeImage_self (t p : String) (c : List α) (fs : FS α) :
    fsExists (writeImage t p c fs) p = true := by
  simp [fsExists, writeImage]

/-! ## Claim theorems: the Icon Cache -/

/-- C5: `create_icon` is idempotent: given a configured (non-empty
effective) template, two successive calls for the same colour return
the same path, the second call does not invoke the renderer
(`r = false`), and it leaves the filesystem exactly as the first call
left it. -/
theorem c5_create_icon_idempotent (hashStr : α → String) (i : Icons) (fs : FS α)
    (colour : List α) (tmpl : Option String) (h : orDefault tmpl i.template ≠ "") :
    ∃ p fs₁ r₁,
      create_icon hashStr i fs colour tmpl = Except.ok (p, fs₁, r₁) ∧
      create_icon hashStr i fs₁ colour tmpl = Except.ok (p, fs₁, false) := by
  by_cases hex : fsExists fs (icon_path hashStr i colour) = true
  · exact ⟨icon_path hashStr i colour, fs, false,
      by simp [create_icon, h, hex], by simp [create_icon, h, hex]⟩
  · refine ⟨icon_path hashStr i colour,
      writeImage (orDefault tmpl i.template) (icon_path hashStr i colour) colour fs,
      true, by simp [create_icon, h, hex], ?_⟩
    simp [create_icon, h, fsExists_writeImage_self]

/-- C5 witness: a concrete run of the two calls. -/
theorem c5_witness :
    orDefault none ({ dirpath := "root" } : Icons).template ≠ "" ∧
    ∃ p fs₁ r₁,
      create_icon (fun n : Int => toString n) { dirpath := "root" } [] [1, 2, 3, 4]
        none = Except.ok (p, fs₁, r₁) ∧
      create_icon (fun n : Int => toString n) { dirpath := "root" } fs₁ [1, 2, 3, 4]
        none = Except.ok (p, fs₁, false) :=
  ⟨by decide,
   c5_create_icon_idempotent (fun n : Int => toString n) { dirpath := "root" } []
     [1, 2, 3, 4] none (by decide)⟩

/-- C6: `get_icon` never writes (the filesystem comes back unchanged),
returns the derived path when an artifact exists there, and returns the
caller-supplied default exactly when none does (for a truthy
caller-supplied default; falsy defaults are the subject of C9). -/
theorem c6_get_icon_no_create (hashStr : α → String) (i : Icons) (fs : FS α)
    (colour : List α) (d : String) (hd : d ≠ "") :
    (get_icon hashStr i fs colour (some d)).2 = fs ∧
    (fsExists fs (icon_path hashStr i colour) = true →
      (get_icon hashStr i fs colour (some d)).1 = icon_path hashStr i colour) ∧
    (fsExists fs (icon_path hashStr i colour) = false →
      (get_icon hashStr i fs colour (some d)).1 = d) := by
  refine ⟨rfl, fun hex => ?_, fun hex => ?_⟩ <;>
    simp [get_icon, orDefault, hd, hex]

/-- C6 witness: on an empty filesystem the caller's default comes back
and nothing is created. -/
theorem c6_witness :
    (get_icon (fun n : Int => toString n) { dirpath := "root" } [] [1, 2, 3, 4]
        (some "fallback.png")).1 = "fallback.png" ∧
    (get_icon (fun n : Int => toString n) { dirpath := "root" } [] [1, 2, 3, 4]
        (some "fallback.png")).2 = ([] : FS Int) :=
  ⟨(c6_get_icon_no_create (fun n : Int => toString n) { dirpath := "root" } []
      [1, 2, 3, 4] "fallback.png" (by decide)).2.2 (by decide),
   (c6_get_icon_no_create (fun n : Int => toString n) { dirpath := "root" } []
      [1, 2, 3, 4] "fallback.png" (by decide)).1⟩

/-- C9: with a falsy explicit default (`None` or the empty string),
`get_icon` falls back to the instance default configured at
construction: it returns the derived path when the artifact exists and
`self.default` otherwise, ignoring the caller-supplied value. -/
theorem c9_falsy_default_falls_back (hashStr : α → String) (i : Icons) (fs : FS α)
    (colour : List α) (dflt : Option String) (h : dflt = none ∨ dflt = some "") :
    get_icon hashStr i fs colour dflt =
      ((if fsExists fs (icon_path hashStr i colour) = true then
          icon_path hashStr i colour
        else i.default), fs) := by
  rcases h with h | h <;> subst h <;> simp [get_icon, orDefault]

/-- C9 witness: an explicit empty-string default yields the instance
default `icon.png` on an empty filesystem. -/
theorem c9_witness :
    get_icon (fun n : Int => toString n) { dirpath := "root" } [] [1, 2, 3, 4]
      (some "") = ("icon.png", ([] : FS Int)) :=
  (c9_falsy_default_falls_back (fun n : Int => toString n) { dirpath := "root" } []
    [1, 2, 3, 4] (some "") (Or.inr rfl)).trans (by decide)

/-! ## Claim theorems: refresh coordination and the query path -/

theorem create_icon_default_template_ok (hashStr : α → String) (iconDir : String)
    (fs : FS α) (c : List α) :
    ∃ r, create_icon hashStr ({ dirpath := iconDir } : Icons) fs c none =
      Except.ok r := by
  by_cases hex : fsExists fs (icon_path hashStr { dirpath := iconDir } c) = true
  · exact ⟨(icon_path hashStr { dirpath := iconDir } c, fs, false),
      by simp [create_icon, orDefault, hex]; decide⟩
  · exact ⟨(icon_path hashStr { dirpath := iconDir } c,
      writeImage "icon.png" (icon_path hashStr { dirpath := iconDir } c) c fs, true),
      by simp [create_icon, orDefault, hex]; decide⟩

theorem generate_icons_ok [DecidableEq α] (hashStr : α → String) (iconDir : String)
    (fs : FS α) (events : List (Event α)) :
    ∃ fs', generate_icons hashStr iconDir fs events = Except.ok fs' := by
  unfold generate_icons
  generalize ((events.map (fun e => e.colour)).dedup : List (List α)) = cs
  induction cs generalizing fs with
  | nil => exact ⟨fs, rfl⟩
  | cons c rest ih =>
    obtain ⟨r, hr⟩ := create_icon_default_template_ok hashStr iconDir fs c
    obtain ⟨fs', hfs'⟩ := ih r.2.1
    exact ⟨fs', by simp [List.foldlM, hr]; exact hfs'⟩

/-- C1 counterexample: a refresh whose fetch reports a data-source
error does *not* leave the previous cache entry untouched: `do_reload`
overwrites the stored Dataset (and its timestamp) with the fetched,
error-carrying one. -/
theorem c1_counterexample :
    ∃ w' : World Int,
      do_reload (fun n : Int => toString n) false
          { events := [], error := some "boom" }
          { cache := some ({ events := [], error := none }, 5), now := 100 } =
        Except.ok w' ∧
      w'.cache ≠ some ({ events := [], error := none }, 5) ∧
      w'.cache = some ({ events := [], error := some "boom" }, 100) := by
  exact ⟨_, rfl, by decide, by decide⟩

/-- C1 amended: every completed `do_reload` — whether or not the fetch
reported a data-source error — overwrites the cache entry with the
fetched Dataset and records the current time as its timestamp; the
error is stored inside the Dataset rather than preserving the previous
entry. -/
theorem c1_reload_always_writes [DecidableEq α] (hashStr : α → String)
    (notify : Bool) (fetched : Dataset α) (w : World α) :
    ∃ w', do_reload hashStr notify fetched w = Except.ok w' ∧
      w'.cache = some (fetched, w.now) := by
  by_cases he : fetched.events = []
  · refine ⟨(if notify then
        { w with cache := some (fetched, w.now), notified := true }
      else { w with cache := some (fetched, w.now) }), ?_, ?_⟩
    · cases notify <;> simp [do_reload, he]
    · cases notify <;> rfl
  · obtain ⟨fs', hfs'⟩ := generate_icons_ok hashStr w.iconDir w.iconFS fetched.events
    refine ⟨(if notify then
        { w with cache := some (fetched, w.now), iconFS := fs', notified := true }
      else { w with cache := some (fetched, w.now), iconFS := fs' }), ?_, ?_⟩
    · cases notify <;> simp [do_reload, he, hfs']
    · cases notify <;> rfl

/-- C2: the refresh decision of the query path: stale-or-absent cache
with no running `reload` job starts exactly one background refresh and
sets rerun; a running job means no refresh is started; a fresh cache
with no running job starts nothing and leaves rerun unset. -/
theorem c2_refresh_decision (cfg : Config) (hashStr : α → String)
    (matcher : String → List (Event α) → List (Event α))
    (fmtHM fmtYMD : Int → String) (w : World α) (maxAge : Int) (query : String) :
    (cached_data_fresh w.cache w.now maxAge = false ∧ w.jobRunning = false →
      (mainSearch cfg hashStr matcher fmtHM fmtYMD w maxAge query).1 = 1 ∧
      (mainSearch cfg hashStr matcher fmtHM fmtYMD w maxAge query).2.1 = true) ∧
    (w.jobRunning = true →
      (mainSearch cfg hashStr matcher fmtHM fmtYMD w maxAge query).1 = 0) ∧
    (cached_data_fresh w.cache w.now maxAge = true ∧ w.jobRunning = false →
      (mainSearch cfg hashStr matcher fmtHM fmtYMD w maxAge query).1 = 0 ∧
      (mainSearch cfg hashStr matcher fmtHM fmtYMD w maxAge query).2.1 = false) := by
  refine ⟨fun h => ?_, fun h => ?_, fun h => ?_⟩
  · simp [mainSearch, h.1, h.2]
  · simp [mainSearch, h]
  · simp [mainSearch, h.1, h.2]

/-- C2 witness: an empty cache and an idle job registry yield exactly
one started refresh and rerun set. -/
theorem c2_witness :
    (cached_data_fresh (({} : World Int)).cache (({} : World Int)).now 600 = false ∧
      (({} : World Int)).jobRunning = false) ∧
    (mainSearch {} (fun n : Int => toString n) (fun _ es => es) (fun _ => "")
        (fun _ => "") ({} : World Int) 600 "").1 = 1 ∧
    (mainSearch {} (fun n : Int => toString n) (fun _ es => es) (fun _ => "")
        (fun _ => "") ({} : World Int) 600 "").2.1 = true :=
  ⟨⟨rfl, rfl⟩,
   (c2_refresh_decision {} (fun n : Int => toString n) (fun _ es => es)
      (fun _ => "") (fun _ => "") ({} : World Int) 600 "").1 ⟨rfl, rfl⟩⟩

/-- C3: a cached Dataset carrying a (truthy, i.e. non-empty) error is
surfaced as the `RuntimeError` of the query path, and no items are
produced, regardless of the cache's age or of the events the Dataset
carries. -/
theorem c3_error_surfaced (cfg : Config) (hashStr : α → String)
    (matcher : String → List (Event α) → List (Event α))
    (fmtHM fmtYMD : Int → String) (w : World α) (maxAge : Int) (query : String)
    (d : Dataset α) (ts : Int) (e : String)
    (hc : w.cache = some (d, ts)) (he : d.error = some e) (hne : e ≠ "") :
    (mainSearch cfg hashStr matcher fmtHM fmtYMD w maxAge query).2.2 =
      Except.error e := by
  have : (mainSearch cfg hashStr matcher fmtHM fmtYMD w maxAge query).2.2 =
      mainFeedback cfg hashStr matcher fmtHM fmtYMD w query
        (mainSearch cfg hashStr matcher fmtHM fmtYMD w maxAge query).2.1 := rfl
  rw [this]
  simp [mainFeedback, mainFeedbackData, cached_data, hc, he, errTruthy, hne]

/-- C3 witness: an error-carrying dataset of any age turns into a
`RuntimeError`, even with a stale cache and a non-empty query. -/
theorem c3_witness :
    (mainSearch {} (fun n : Int => toString n) (fun _ es => es) (fun _ => "")
        (fun _ => "")
        { cache := some ({ events := [], error := some "boom" }, 0), now := 10000 }
        600 "zoom").2.2 = Except.error "boom" :=
  c3_error_surfaced {} (fun n : Int => toString n) (fun _ es => es) (fun _ => "")
    (fun _ => "")
    { cache := some ({ events := [], error := some "boom" }, 0), now := 10000 }
    600 "zoom" { events := [], error := some "boom" } 0 "boom" rfl rfl (by decide)

/-- C10: `event_filter` touches at most the `url` field: a rejected
event comes back entirely unmodified, and an accepted event agrees
with the input on every field other than `url`. -/
theorem c10_event_filter_frame (cfg : Config) (now : Int) (e : Event α) :
    ((event_filter cfg now e).1 = false → (event_filter cfg now e).2 = e) ∧
    (event_filter cfg now e).2 = { e with url := (event_filter cfg now e).2.url } := by
  unfold event_filter
  split_ifs <;>
    first
      | exact ⟨fun _ => rfl, rfl⟩
      | { cases h : firstFieldMatch cfg.regexes [e.url, e.location, e.notes] <;>
            simp [h] }

/-- C10 witness: a concrete rejected event (finished before `now`)
comes back unmodified. -/
theorem c10_witness :
    (event_filter {}
        0 { title := "t", start_date := -10, end_date := -1, account := "a",
            calendar := "c", url := "u", location := "l", notes := "n",
            colour := ([] : List Int), uid := "id" }).2 =
      { title := "t", start_date := -10, end_date := -1, account := "a",
        calendar := "c", url := "u", location := "l", notes := "n",
        colour := ([] : List Int), uid := "id" } :=
  (c10_event_filter_frame {} 0
    { title := "t", start_date := -10, end_date := -1, account := "a",
      calendar := "c", url := "u", location := "l", notes := "n",
      colour := ([] : List Int), uid := "id" }).1 (by decide)

/-! ## First-match characterization of the pattern search -/

theorem firstPatternMatch_isSome_iff (rxs : List (String → Option String))
    (s : String) :
    (firstPatternMatch rxs s).isSome = true ↔
      ∃ rx ∈ rxs, (rx s).isSome = true := by
  induction rxs with
  | nil => simp [firstPatternMatch]
  | cons rx rest ih =>
    cases h : rx s with
    | some m =>
      simp only [firstPatternMatch, h, Option.isSome_some, true_iff]
      exact ⟨rx, by simp, by simp [h]⟩
    | none =>
      simp only [firstPatternMatch, h, ih, List.mem_cons]
      constructor
      · rintro ⟨r, hr, hs⟩; exact ⟨r, Or.inr hr, hs⟩
      · rintro ⟨r, hr | hr, hs⟩
        · subst hr; simp [h] at hs
        · exact ⟨r, hr, hs⟩

theorem firstPatternMatch_eq_find (rxs : List (String → Option String))
    (s : String) :
    firstPatternMatch rxs s =
      (rxs.find? (fun rx => (rx s).isSome)).bind (fun rx => rx s) := by
  induction rxs with
  | nil => rfl
  | cons rx rest ih =>
    cases h : rx s with
    | some m => simp [firstPatternMatch, List.find?, h]
    | none => simp [firstPatternMatch, List.find?, h, ih]

theorem firstFieldMatch_isSome_iff (rxs : List (String → Option String))
    (fields : List String) :
    (firstFieldMatch rxs fields).isSome = true ↔
      ∃ s ∈ fields, ∃ rx ∈ rxs, (rx s).isSome = true := by
  induction fields with
  | nil => simp [firstFieldMatch]
  | cons s rest ih =>
    cases h : firstPatternMatch rxs s with
    | some m =>
      simp only [firstFieldMatch, h, Option.isSome_some, true_iff]
      exact ⟨s, by simp,
        (firstPatternMatch_isSome_iff rxs s).mp (by simp [h])⟩
    | none =>
      simp only [firstFieldMatch, h, ih, List.mem_cons]
      constructor
      · rintro ⟨t, ht, hs⟩; exact ⟨t, Or.inr ht, hs⟩
      · rintro ⟨t, ht | ht, hs⟩
        · subst ht
          have := (firstPatternMatch_isSome_iff rxs t).mpr hs
          simp [h] at this
        · exact ⟨t, ht, hs⟩

theorem firstFieldMatch_eq_find (rxs : List (String → Option String))
    (fields : List String) :
    firstFieldMatch rxs fields =
      (fields.find? (fun s => (firstPatternMatch rxs s).isSome)).bind
        (firstPatternMatch rxs) := by
  induction fields with
  | nil => rfl
  | cons s rest ih =>
    cases h : firstPatternMatch rxs s with
    | some m => simp [firstFieldMatch, List.find?, h]
    | none => simp [firstFieldMatch, List.find?, h, ih]

/-- C4: `event_filter` keeps an event iff its end time has not passed,
its account and calendar pass the (possibly empty) allow-lists, and at
least one of url/location/notes matches a configured pattern; when
kept, the result is the event with `url` replaced by the matched
substring of the first matching field (in the order url, location,
notes) under the first matching pattern within that field. -/
theorem c4_event_filter_characterization (cfg : Config) (now : Int) (e : Event α) :
    ((event_filter cfg now e).1 = true ↔
      (now ≤ e.end_date ∧
       (cfg.accounts = [] ∨ e.account ∈ cfg.accounts) ∧
       (cfg.calendars = [] ∨ e.calendar ∈ cfg.calendars) ∧
       ∃ s ∈ [e.url, e.location, e.notes], ∃ rx ∈ cfg.regexes,
         (rx s).isSome = true)) ∧
    ((event_filter cfg now e).1 = true →
      ∃ s rx m,
        [e.url, e.location, e.notes].find?
            (fun t => (firstPatternMatch cfg.regexes t).isSome) = some s ∧
        cfg.regexes.find? (fun r => (r s).isSome) = some rx ∧
        rx s = some m ∧
        (event_filter cfg now e).2 = { e with url := m }) := by
  unfold event_filter
  split_ifs with h1 h2 h3
  · have hne : ¬ now ≤ e.end_date := not_le.mpr h1
    exact ⟨by simp [hne], by simp⟩
  · refine ⟨by simp [h2.1, h2.2], by simp⟩
  · refine ⟨by simp [h3.1, h3.2], by simp⟩
  · have hend : now ≤ e.end_date := not_lt.mp h1
    have hacc : cfg.accounts = [] ∨ e.account ∈ cfg.accounts := by
      rcases not_and_or.mp h2 with h | h
      · exact Or.inl (not_not.mp h)
      · exact Or.inr (not_not.mp h)
    have hcal : cfg.calendars = [] ∨ e.calendar ∈ cfg.calendars := by
      rcases not_and_or.mp h3 with h | h
      · exact Or.inl (not_not.mp h)
      · exact Or.inr (not_not.mp h)
    cases hm : firstFieldMatch cfg.regexes [e.url, e.location, e.notes] with
    | none =>
      have hnomatch : ¬ ∃ s ∈ [e.url, e.location, e.notes], ∃ rx ∈ cfg.regexes,
          (rx s).isSome = true := by
        intro hex
        have := (firstFieldMatch_isSome_iff cfg.regexes
          [e.url, e.location, e.notes]).mpr hex
        simp [hm] at this
      refine ⟨⟨fun h => by simp at h, ?_⟩, fun h => by simp at h⟩
      rintro ⟨-, -, -, t, ht, rx, hrx, hs⟩
      exact absurd ⟨t, ht, rx, hrx, hs⟩ hnomatch
    | some m =>
      constructor
      · simp only [true_iff]
        refine ⟨hend, hacc, hcal, ?_⟩
        exact (firstFieldMatch_isSome_iff cfg.regexes
          [e.url, e.location, e.notes]).mp (by simp [hm])
      · intro _
        have hfind := firstFieldMatch_eq_find cfg.regexes
          [e.url, e.location, e.notes]
        rw [hm] at hfind
        obtain ⟨s, hs, hps⟩ := Option.bind_eq_some.mp hfind.symm
        have hps' := (firstPatternMatch_eq_find cfg.regexes s).symm.trans hps
        obtain ⟨rx, hrx, hrxs⟩ := Option.bind_eq_some.mp hps'
        exact ⟨s, rx, m, hs, hrx, hrxs, by simp⟩

/-- C4 witness: a concrete wanted event whose `url` field matches the
single configured pattern. -/
theorem c4_witness :
    ∃ s rx m,
      ["meet", "", ""].find?
          (fun t => (firstPatternMatch
            [fun s => if s = "meet" then some "meet" else none] t).isSome) =
        some s ∧
      ([fun s => if s = "meet" then some "meet" else none] :
          List (String → Option String)).find? (fun r => (r s).isSome) = some rx ∧
      rx s = some m ∧
      (event_filter
          { accounts := ["Work"], calendars := [],
            regexes := [fun s => if s = "meet" then some "meet" else none] } 0
          { title := "Standup", start_date := 0, end_date := 10,
            account := "Work", calendar := "Cal", url := "meet", location := "",
            notes := "", colour := ([] : List Int), uid := "u" }).2 =
        { title := "Standup", start_date := 0, end_date := 10, account := "Work",
          calendar := "Cal", url := m, location := "", notes := "",
          colour := ([] : List Int), uid := "u" } :=
  (c4_event_filter_characterization
    { accounts := ["Work"], calendars := [],
      regexes := [fun s => if s = "meet" then some "meet" else none] } 0
    { title := "Standup", start_date := 0, end_date := 10, account := "Work",
      calendar := "Cal", url := "meet", location := "", notes := "",
      colour := ([] : List Int), uid := "u" }).2 (by decide)

/-! ## The synthetic "Reload Events" item -/

theorem reload_mem_aux (eventItems : List Item) (cond : Prop) [Decidable cond]
    (wt : String)
    (hno : Item.reloadAction "Reload Events"
        "Update cached events from Calendar database" "reload" "reload.png" ∉
      eventItems) :
    (Item.reloadAction "Reload Events"
        "Update cached events from Calendar database" "reload" "reload.png" ∈
      (if (eventItems ++ (if cond then
            [Item.reloadAction "Reload Events"
              "Update cached events from Calendar database" "reload" "reload.png"]
          else [])) = [] then
        [Item.warning wt ""]
      else eventItems ++ (if cond then
            [Item.reloadAction "Reload Events"
              "Update cached events from Calendar database" "reload" "reload.png"]
          else []))) ↔ cond := by
  by_cases hcond : cond
  · rw [if_pos hcond]
    rw [if_neg (by simp : ¬(eventItems ++
      [Item.reloadAction "Reload Events"
        "Update cached events from Calendar database" "reload" "reload.png"] = []))]
    simp [hcond]
  · rw [if_neg hcond, List.append_nil]
    by_cases hE : eventItems = []
    · subst hE
      simp [hcond]
    · rw [if_neg hE]
      simp [hno, hcond]

/-- C8 counterexample: the query `"r"` is a non-empty prefix of the
literal word `reload`, yet the result list does not include the
synthetic "Reload Events" item: the code requires `len(query) > 1`. -/
theorem c8_counterexample :
    ("r" ≠ "" ∧ pyStartsWith "reload" "r" = true) ∧
    (mainSearch {} (fun n : Int => toString n) (fun _ es => es) (fun _ => "")
        (fun _ => "")
        { cache := some (({ } : Dataset Int), 0), now := 0 } 600 "r").2.2 =
      Except.ok [Item.warning "No Matching Events" ""] ∧
    Item.reloadAction "Reload Events" "Update cached events from Calendar database"
        "reload" "reload.png" ∉ [Item.warning "No Matching Events" ""] := by
  refine ⟨by decide, rfl, by decide⟩

/-- C8 amended: in default query mode, with a cached dataset present
and carrying no (truthy) error, the result list includes the synthetic
"Reload Events" item exactly when the query is a prefix of the literal
word `reload` of length at least 2 (not merely non-empty: the code
requires `len(query) > 1`). -/
theorem c8_reload_item_iff (cfg : Config) (hashStr : α → String)
    (matcher : String → List (Event α) → List (Event α))
    (fmtHM fmtYMD : Int → String) (w : World α) (maxAge : Int) (query : String)
    (d : Dataset α) (ts : Int)
    (hc : w.cache = some (d, ts)) (he : errTruthy d.error = false) :
    ∃ items,
      (mainSearch cfg hashStr matcher fmtHM fmtYMD w maxAge query).2.2 =
        Except.ok items ∧
      (Item.reloadAction "Reload Events"
          "Update cached events from Calendar database" "reload" "reload.png" ∈
        items ↔ 1 < query.length ∧ pyStartsWith "reload" query = true) := by
  have hred : (mainSearch cfg hashStr matcher fmtHM fmtYMD w maxAge query).2.2 =
      mainFeedback cfg hashStr matcher fmtHM fmtYMD w query
        (mainSearch cfg hashStr matcher fmtHM fmtYMD w maxAge query).2.1 := rfl
  rw [hred]
  have hm : mainFeedback cfg hashStr matcher fmtHM fmtYMD w query
      (mainSearch cfg hashStr matcher fmtHM fmtYMD w maxAge query).2.1 =
      mainFeedbackData cfg hashStr matcher fmtHM fmtYMD w query d := by
    simp [mainFeedback, cached_data, hc]
  rw [hm]
  unfold mainFeedbackData
  rw [he, if_neg (by decide : ¬((false : Bool) = true))]
  refine ⟨_, rfl, ?_⟩
  exact reload_mem_aux _ _ _ (by simp)

/-- C8 witness: with a fresh cached dataset, the query `"re"` (length
2, a prefix of `reload`) yields the synthetic item. -/
theorem c8_witness :
    ∃ items,
      (mainSearch {} (fun n : Int => toString n) (fun _ es => es) (fun _ => "")
          (fun _ => "")
          { cache := some (({ } : Dataset Int), 0), now := 0 } 600 "re").2.2 =
        Except.ok items ∧
      (Item.reloadAction "Reload Events"
          "Update cached events from Calendar database" "reload" "reload.png" ∈
        items ↔ 1 < ("re" : String).length ∧ pyStartsWith "reload" "re" = true) :=
  c8_reload_item_iff {} (fun n : Int => toString n) (fun _ es => es) (fun _ => "")
    (fun _ => "") { cache := some (({ } : Dataset Int), 0), now := 0 } 600 "re"
    { } 0 rfl (by decide)

/-! ## The derived icon path (C7) -/

theorem str_data_ne_nil (a : String) (h : a ≠ "") : a.data ≠ [] := by
  intro hd
  exact h (String.ext hd)

theorem append_ne_empty_left (a b : String) (ha : a ≠ "") : a ++ b ≠ "" := by
  intro h
  apply ha
  have hd : a.data ++ b.data = [] := by
    rw [← String.data_append, h]
  exact String.ext (List.append_eq_nil.mp hd).1

theorem append_ne_empty_right (a b : String) (hb : b ≠ "") : a ++ b ≠ "" := by
  intro h
  apply hb
  have hd : a.data ++ b.data = [] := by
    rw [← String.data_append, h]
  exact String.ext (List.append_eq_nil.mp hd).2

theorem headIsSlash_append (a b : String) (ha : a ≠ "") :
    headIsSlash (a ++ b) = headIsSlash a := by
  unfold headIsSlash
  rw [String.data_append, List.head?_append_of_ne_nil _ (str_data_ne_nil a ha)]

theorem lastIsSlash_append (a b : String) (hb : b ≠ "") :
    lastIsSlash (a ++ b) = lastIsSlash b := by
  unfold lastIsSlash
  rw [String.data_append, List.getLast?_append_of_ne_nil _ (str_data_ne_nil b hb)]

/-- A path segment that is non-empty and neither starts nor ends with a
slash (as Python's `str(hash(n))` — a decimal integer string — always
is). -/
abbrev goodSeg (s : String) : Prop :=
  s ≠ "" ∧ headIsSlash s = false ∧ lastIsSlash s = false

theorem pyJoin_eq (a b : String) (ha : a ≠ "") (ha2 : lastIsSlash a = false)
    (hb : headIsSlash b = false) : pyJoin a b = a ++ "/" ++ b := by
  unfold pyJoin
  rw [if_neg (by simp [hb]), if_neg (by simp [ha, ha2])]

theorem goodSeg_slash_append (a b : String) (ha : goodSeg a) (hb : goodSeg b) :
    goodSeg (a ++ "/" ++ b) := by
  obtain ⟨ha1, ha2, ha3⟩ := ha
  obtain ⟨hb1, hb2, hb3⟩ := hb
  refine ⟨append_ne_empty_right _ _ hb1, ?_, ?_⟩
  · rw [headIsSlash_append _ _ (append_ne_empty_left _ _ ha1),
      headIsSlash_append _ _ ha1]
    exact ha2
  · rw [lastIsSlash_append _ _ hb1]
    exact hb3

theorem pyJoin_good (a b : String) (ha : goodSeg a) (hb : goodSeg b) :
    pyJoin a b = a ++ "/" ++ b :=
  pyJoin_eq a b ha.1 ha.2.2 hb.2.1

/-- C7 counterexample: the derived path is *not*
`root / c1 / c2 / c3 / c4.png`: for the colour hashing to
`1, 2, 3, 4` under root `root`, the code produces
`root/1/2/3/4/1-2-3-4.png` while the claimed formula gives
`root/1/2/3/4.png`. -/
theorem c7_counterexample :
    icon_path (fun n : Int => toString n) { dirpath := "root" } [1, 2, 3, 4] =
      "root/1/2/3/4/1-2-3-4.png" ∧
    claimIconPath (fun n : Int => toString n) "root" [1, 2, 3, 4] =
      "root/1/2/3/4.png" ∧
    icon_path (fun n : Int => toString n) { dirpath := "root" } [1, 2, 3, 4] ≠
      claimIconPath (fun n : Int => toString n) "root" [1, 2, 3, 4] :=
  ⟨by decide, by decide, by decide⟩

/-- C7 amended: for a 4-component colour, provided each stringified
per-component hash is a slash-free non-empty segment (as decimal
integer strings always are) and the root neither is empty nor ends in
a slash, the derived path is
`root / h1 / h2 / h3 / h4 / (h1-h2-h3-h4).png`: one directory level
per component (four levels), with the filename stem the per-component
hash strings joined by `-`. -/
theorem c7_icon_path_shape (hashStr : α → String) (i : Icons) (a b c d : α)
    (g1 : goodSeg (hashStr a)) (g2 : goodSeg (hashStr b))
    (g3 : goodSeg (hashStr c)) (g4 : goodSeg (hashStr d))
    (hd1 : i.dirpath ≠ "") (hd2 : lastIsSlash i.dirpath = false) :
    icon_path hashStr i [a, b, c, d] =
      i.dirpath ++ "/" ++ hashStr a ++ "/" ++ hashStr b ++ "/" ++ hashStr c ++
        "/" ++ hashStr d ++ "/" ++
        (hashStr a ++ "-" ++ hashStr b ++ "-" ++ hashStr c ++ "-" ++ hashStr d ++
          ".png") := by
  have g12 := goodSeg_slash_append _ _ g1 g2
  have g123 := goodSeg_slash_append _ _ g12 g3
  have g1234 := goodSeg_slash_append _ _ g123 g4
  have key : icon_path hashStr i [a, b, c, d] =
      pyJoin
        (pyJoin i.dirpath
          (pyJoin (pyJoin (pyJoin (hashStr a) (hashStr b)) (hashStr c)) (hashStr d)))
        (strJoin "-" [hashStr a, hashStr b, hashStr c, hashStr d] ++ ".png") := rfl
  have hsj : strJoin "-" [hashStr a, hashStr b, hashStr c, hashStr d] =
      (hashStr a ++ "-") ++ ((hashStr b ++ "-") ++ ((hashStr c ++ "-") ++ hashStr d)) :=
    rfl
  have h1dne : hashStr a ++ "-" ≠ "" := append_ne_empty_left _ _ g1.1
  have hfa : headIsSlash
      (strJoin "-" [hashStr a, hashStr b, hashStr c, hashStr d] ++ ".png") = false := by
    rw [hsj, headIsSlash_append _ _ (append_ne_empty_left _ _ h1dne),
      headIsSlash_append _ _ h1dne, headIsSlash_append _ _ g1.1]
    exact g1.2.1
  have hbase_ne : i.dirpath ++ "/" ++
      ((hashStr a ++ "/" ++ hashStr b) ++ "/" ++ hashStr c ++ "/" ++ hashStr d) ≠ "" :=
    append_ne_empty_left _ _ (append_ne_empty_left _ _ hd1)
  rw [key, pyJoin_good _ _ g1 g2, pyJoin_good _ _ g12 g3, pyJoin_good _ _ g123 g4,
    pyJoin_eq i.dirpath _ hd1 hd2 g1234.2.1]
  rw [pyJoin_eq _ _ (append_ne_empty_right _ _ g1234.1)
    (by rw [lastIsSlash_append _ _ g1234.1]; exact g1234.2.2) hfa]
  rw [hsj]
  simp only [String.append_assoc]

/-- C7 witness: the shape theorem evaluated at the concrete colour
hashing to `1, 2, 3, 4` under root `root`. -/
theorem c7_witness :
    icon_path (fun n : Int => toString n) { dirpath := "root" } [1, 2, 3, 4] =
      "root/1/2/3/4/1-2-3-4.png" :=
  (c7_icon_path_shape (fun n : Int => toString n) { dirpath := "root" } 1 2 3 4
    (by decide) (by decide) (by decide) (by decide) (by decide) (by decide)).trans
    (by decide)

end AlfredVC
